import Mathlib

/-!
Verification of the krewetka flow-classification gRPC server
(src/classification/classifier_server.py) against its design spec.

The embedding follows the source closely:

* `FlowMessage` is the protobuf request message.  Its definition lives in
  the repository's proto files (not under src/); the spec's contract in
  §6 lists exactly the ten numeric fields below, and `classifier_server.py`
  reads exactly these ten attributes.
* `Model` is the pickled scikit-learn decision tree: an abstract row-wise
  predictor that may fail (an inference exception).  `Model.predict`
  mirrors sklearn batch prediction: each input row is predicted
  independently, one label per row.
* `Classifier.classify`, `FlowMessageClassifierServicer.Classify` and
  `FlowMessageClassifierServicer.ClassifyStreaming` are transcribed from
  the corresponding Python functions; the streaming handler repeats the
  label-mapping body inline, exactly as the source does, instead of
  calling the unary handler.
* The servicer bodies contain no exception handling and never set a gRPC
  status code, so an exception that escapes a handler is mapped by the
  gRPC framework to its default status UNKNOWN; `unaryCallOutcome` and
  `streamingCallOutcome` record the status a caller observes.
* `startProcess` and `RunningServer.run` model the process lifecycle: the
  class attribute `Classifier.model` is initialised by pickle.load when
  the module body runs, before `serve` binds the port, and no handler
  ever assigns to it.
-/

namespace Krewetka

/-- A network-flow record: the protobuf FlowMessage. Modelled from the spec:
the proto definition is not under src/; §6 of the spec lists exactly these
ten required numeric fields, which are the ten attributes the server reads. -/
structure FlowMessage where
  L4SrcPort : Nat
  L4DstPort : Nat
  Protocol : Nat
  L7Proto : Nat
  InBytes : Nat
  OutBytes : Nat
  InPkts : Nat
  OutPkts : Nat
  TCPFlags : Nat
  FlowDurationMilliseconds : Nat
deriving DecidableEq, Repr

/-- The verdict message returned per record: protobuf FlowMessageClass. -/
structure FlowMessageClass where
  malicious : Bool
deriving DecidableEq, Repr

/-- Failure of a single model inference (an exception raised inside
sklearn predict, e.g. on a malformed vector or an internal numeric error). -/
inductive PredictError where
  | inferenceFailure
deriving DecidableEq, Repr

/-- The pickled decision model, abstractly: a row-wise predictor returning a
discrete class label, which may fail with an exception. -/
structure Model where
  predictRow : List Nat → Except PredictError Int

/-- Batch prediction, as sklearn model.predict: every row of the input is
predicted independently; one label per input row; an exception on any row
propagates out of the whole call. -/
def Model.predict (m : Model) (rows : List (List Nat)) :
    Except PredictError (List Int) :=
  rows.mapM m.predictRow

/-- Transcription of Classifier.classify: submits the single-row batch
holding the ten message fields, in source order, to model.predict. -/
def Classifier.classify (model : Model) (msg : FlowMessage) :
    Except PredictError (List Int) :=
  model.predict [[
    msg.L4SrcPort,
    msg.L4DstPort,
    msg.Protocol,
    msg.L7Proto,
    msg.InBytes,
    msg.OutBytes,
    msg.InPkts,
    msg.OutPkts,
    msg.TCPFlags,
    msg.FlowDurationMilliseconds
  ]]

/-- An error escaping an RPC handler: either the inference exception from
model.predict, or the IndexError the Python expression result[0] would
raise on an empty prediction array. -/
inductive RpcError where
  | inference (e : PredictError)
  | indexError
deriving DecidableEq, Repr

/-- Transcription of FlowMessageClassifierServicer.Classify: classify the
request, then map label 1 to malicious = true and any other label to
malicious = false; an exception propagates out of the handler. -/
def FlowMessageClassifierServicer.Classify (model : Model)
    (request : FlowMessage) : Except RpcError FlowMessageClass :=
  match Classifier.classify model request with
  | .error e => .error (.inference e)
  | .ok result =>
      match result with
      | [] => .error .indexError
      | r0 :: _ => .ok { malicious := r0 == 1 }

/-- Transcription of FlowMessageClassifierServicer.ClassifyStreaming: the
generator loop classifies each inbound record in arrival order and yields
one verdict per record, with the label-mapping body repeated inline as in
the source; the first exception ends the loop, so the call returns the
verdicts yielded before the failure together with the escaping error. -/
def FlowMessageClassifierServicer.ClassifyStreaming (model : Model) :
    List FlowMessage → List FlowMessageClass × Option RpcError
  | [] => ([], none)
  | msg :: rest =>
      match Classifier.classify model msg with
      | .error e => ([], some (.inference e))
      | .ok result =>
          match result with
          | [] => ([], some .indexError)
          | r0 :: _ =>
              let out := FlowMessageClassifierServicer.ClassifyStreaming model rest
              ({ malicious := r0 == 1 } :: out.1, out.2)

/-- Status codes a caller can observe on these calls. -/
inductive StatusCode where
  | ok
  | unknown
  | invalidArgument
  | internal
deriving DecidableEq, Repr

/-- What a unary caller observes. The handler body contains no exception
handling and never sets a status code, so a normal return carries OK and an
exception that escapes the handler is mapped by the gRPC framework to its
default status UNKNOWN, with no response message. -/
def unaryCallOutcome (model : Model) (request : FlowMessage) :
    StatusCode × Option FlowMessageClass :=
  match FlowMessageClassifierServicer.Classify model request with
  | .ok v => (StatusCode.ok, some v)
  | .error _ => (StatusCode.unknown, none)

/-- What a streaming caller observes: the verdicts emitted before the stream
ended, and OK on normal exhaustion of the generator or the framework default
UNKNOWN when an exception escaped it. -/
def streamingCallOutcome (model : Model) (msgs : List FlowMessage) :
    List FlowMessageClass × StatusCode :=
  match FlowMessageClassifierServicer.ClassifyStreaming model msgs with
  | (vs, none) => (vs, StatusCode.ok)
  | (vs, some _) => (vs, StatusCode.unknown)

/-- Fatal startup failure: pickle.load of the model artifact raised. -/
inductive StartupError where
  | modelLoadFailure
deriving DecidableEq, Repr

/-- A server that finished startup: model loaded and port bound. -/
structure RunningServer where
  model : Model
  port : Nat

/-- Process startup in source order: the module body evaluates the class
attribute Classifier.model by unpickling the artifact before serve ever
binds the port; a missing, unreadable or undeserializable artifact (none)
is an uncaught exception, terminating the process with nothing bound and
nothing served.  On success the server holds exactly the loaded model. -/
def startProcess (artifact : Option Model) (port : Nat) :
    Except StartupError RunningServer :=
  match artifact with
  | none => .error .modelLoadFailure
  | some m => .ok { model := m, port := port }

/-- One inbound RPC. -/
inductive Request where
  | unary (r : FlowMessage)
  | streaming (rs : List FlowMessage)

/-- What the caller of one RPC observes. -/
inductive Response where
  | unary (s : StatusCode) (v : Option FlowMessageClass)
  | streaming (vs : List FlowMessageClass) (s : StatusCode)

/-- Dispatching one request against the running server.  The handlers read
the class attribute Classifier.model and no statement in either handler
assigns to it or rebinds it, so the server state comes back unchanged. -/
def RunningServer.handle (s : RunningServer) (req : Request) :
    Response × RunningServer :=
  match req with
  | .unary r =>
      let out := unaryCallOutcome s.model r
      (.unary out.1 out.2, s)
  | .streaming rs =>
      let out := streamingCallOutcome s.model rs
      (.streaming out.1 out.2, s)

/-- The server state after serving a whole trace of requests. -/
def RunningServer.run (s : RunningServer) : List Request → RunningServer
  | [] => s
  | req :: rest => ((s.handle req).2).run rest

/-- The fixed feature order stated by the spec (§3): the vector passed to
the model must be these ten fields in exactly this order. -/
def specFeatureVector (msg : FlowMessage) : List Nat :=
  [msg.L4SrcPort, msg.L4DstPort, msg.Protocol, msg.L7Proto,
   msg.InBytes, msg.OutBytes, msg.InPkts, msg.OutPkts,
   msg.TCPFlags, msg.FlowDurationMilliseconds]

/-- A concrete always-benign model, for witnesses. -/
def modelZero : Model := ⟨fun _ => .ok 0⟩

/-- A concrete always-malicious model, for witnesses. -/
def modelOne : Model := ⟨fun _ => .ok 1⟩

/-- A concrete model whose inference always raises, for witnesses. -/
def modelFail : Model := ⟨fun _ => .error .inferenceFailure⟩

/-- The spec's §8 example record. -/
def msgExample : FlowMessage :=
  ⟨443, 51000, 6, 91, 1000, 500, 10, 8, 24, 1200⟩

/-- A concrete record all of whose fields are zero, for witnesses. -/
def msgZero : FlowMessage := ⟨0, 0, 0, 0, 0, 0, 0, 0, 0, 0⟩

/-- A concrete model that succeeds (label 0) exactly on rows whose first
entry is 443 and raises on every other row, for witnesses. -/
def modelMixed : Model :=
  ⟨fun row => if row.headD 0 = 443 then .ok 0 else .error .inferenceFailure⟩

/-- Dispatching a request never changes the server state: both handler
branches return the state they were given. -/
theorem handle_preserves_state (s : RunningServer) (req : Request) :
    (s.handle req).2 = s := by
  cases req <;> rfl

/-- Serving any trace of requests leaves the model component unchanged. -/
theorem run_model_eq (s : RunningServer) (reqs : List Request) :
    (RunningServer.run s reqs).model = s.model := by
  induction reqs generalizing s with
  | nil => rfl
  | cons req rest ih =>
      rw [RunningServer.run, handle_preserves_state]
      exact ih s

/-- C1: every classification call — the unary handler and each record of the
streaming handler — submits to model.predict exactly the single-row batch
holding the ten FlowRecord fields in the spec's fixed order; both handlers
reach the model only through Classifier.classify, whose submitted batch is
exactly that vector. -/
theorem C1_feature_vector_order (model : Model) (msg : FlowMessage)
    (rest : List FlowMessage) :
    Classifier.classify model msg = model.predict [specFeatureVector msg] ∧
    FlowMessageClassifierServicer.Classify model msg =
      (match model.predict [specFeatureVector msg] with
        | .error e => .error (.inference e)
        | .ok result =>
            match result with
            | [] => .error .indexError
            | r0 :: _ => .ok { malicious := r0 == 1 }) ∧
    FlowMessageClassifierServicer.ClassifyStreaming model (msg :: rest) =
      (match model.predict [specFeatureVector msg] with
        | .error e => ([], some (.inference e))
        | .ok result =>
            match result with
            | [] => ([], some .indexError)
            | r0 :: _ =>
                let out := FlowMessageClassifierServicer.ClassifyStreaming model rest
                ({ malicious := r0 == 1 } :: out.1, out.2)) :=
  ⟨rfl, rfl, rfl⟩

/-- C2: in both the unary and the streaming handler, a record on which the
model returns label 1 yields a Verdict with malicious = true, and any other
label value (0, negative, or a multi-class label) yields malicious = false:
the verdict boolean is true exactly when the label equals 1. -/
theorem C2_label_mapping (model : Model) (msg : FlowMessage)
    (rest : List FlowMessage) (l : Int) (ls : List Int)
    (h : Classifier.classify model msg = .ok (l :: ls)) :
    FlowMessageClassifierServicer.Classify model msg =
      .ok { malicious := l == 1 } ∧
    (FlowMessageClassifierServicer.ClassifyStreaming model
        (msg :: rest)).1.head? = some { malicious := l == 1 } ∧
    ((l == 1) = true ↔ l = 1) := by
  refine ⟨?_, ?_, beq_iff_eq⟩
  · simp only [FlowMessageClassifierServicer.Classify, h]
  · simp only [FlowMessageClassifierServicer.ClassifyStreaming, h, List.head?]

/-- C2 at concrete inputs: the spec's §8 example record is malicious under a
model labelling it 1 and benign under a model labelling it 0. -/
theorem C2_label_mapping_witness :
    FlowMessageClassifierServicer.Classify modelOne msgExample =
      .ok { malicious := true } ∧
    FlowMessageClassifierServicer.Classify modelZero msgExample =
      .ok { malicious := false } := by
  constructor
  · simpa using (C2_label_mapping modelOne msgExample [] 1 [] rfl).1
  · simpa using (C2_label_mapping modelZero msgExample [] 0 [] rfl).1

/-- C7: for a fixed loaded model and a fixed FlowRecord, any two executions
of the unary Classify handler produce the same outcome: the handler is a
pure function of the model and the record, with no other input. -/
theorem C7_determinism (model : Model) (r : FlowMessage)
    (v1 v2 : Except RpcError FlowMessageClass)
    (h1 : FlowMessageClassifierServicer.Classify model r = v1)
    (h2 : FlowMessageClassifierServicer.Classify model r = v2) :
    v1 = v2 :=
  h1.symm.trans h2

/-- C7 at a concrete input: two runs of Classify on the example record under
the always-1 model agree. -/
theorem C7_determinism_witness :
    (Except.ok { malicious := true } : Except RpcError FlowMessageClass) =
      Except.ok { malicious := true } :=
  C7_determinism modelOne msgExample _ _ rfl rfl

/-- C10: the verdict of Classify depends only on the ten named feature
fields: two FlowMessages that agree on L4SrcPort, L4DstPort, Protocol,
L7Proto, InBytes, OutBytes, InPkts, OutPkts, TCPFlags and
FlowDurationMilliseconds get identical outcomes under the same model. -/
theorem C10_depends_only_on_features (model : Model) (m1 m2 : FlowMessage)
    (e1 : m1.L4SrcPort = m2.L4SrcPort) (e2 : m1.L4DstPort = m2.L4DstPort)
    (e3 : m1.Protocol = m2.Protocol) (e4 : m1.L7Proto = m2.L7Proto)
    (e5 : m1.InBytes = m2.InBytes) (e6 : m1.OutBytes = m2.OutBytes)
    (e7 : m1.InPkts = m2.InPkts) (e8 : m1.OutPkts = m2.OutPkts)
    (e9 : m1.TCPFlags = m2.TCPFlags)
    (e10 : m1.FlowDurationMilliseconds = m2.FlowDurationMilliseconds) :
    FlowMessageClassifierServicer.Classify model m1 =
      FlowMessageClassifierServicer.Classify model m2 := by
  have hv : specFeatureVector m1 = specFeatureVector m2 := by
    simp only [specFeatureVector, e1, e2, e3, e4, e5, e6, e7, e8, e9, e10]
  have hc : Classifier.classify model m1 = Classifier.classify model m2 := by
    show model.predict [specFeatureVector m1] =
      model.predict [specFeatureVector m2]
    rw [hv]
  simp only [FlowMessageClassifierServicer.Classify, hc]

/-- C10 at a concrete input: two messages agreeing field-by-field with the
example record get the same outcome under the always-0 model. -/
theorem C10_depends_only_on_features_witness :
    FlowMessageClassifierServicer.Classify modelZero msgExample =
      FlowMessageClassifierServicer.Classify modelZero
        ⟨443, 51000, 6, 91, 1000, 500, 10, 8, 24, 1200⟩ :=
  C10_depends_only_on_features modelZero msgExample
    ⟨443, 51000, 6, 91, 1000, 500, 10, 8, 24, 1200⟩
    rfl rfl rfl rfl rfl rfl rfl rfl rfl rfl

/-- C3: a streaming call that closes normally without error emits exactly
as many Verdicts as records received, and for every i the i-th emitted
Verdict is the classification of the i-th received record. -/
theorem C3_completeness_and_order (model : Model) (msgs : List FlowMessage)
    (h : (FlowMessageClassifierServicer.ClassifyStreaming model msgs).2 =
      none) :
    (FlowMessageClassifierServicer.ClassifyStreaming model msgs).1.length =
      msgs.length ∧
    ∀ i, i < msgs.length →
      ∃ m v, msgs[i]? = some m ∧
        FlowMessageClassifierServicer.Classify model m = Except.ok v ∧
        (FlowMessageClassifierServicer.ClassifyStreaming model msgs).1[i]? =
          some v := by
  induction msgs with
  | nil =>
      refine ⟨rfl, ?_⟩
      intro i hi
      simp at hi
  | cons msg rest ih =>
      rcases hc : Classifier.classify model msg with e | ls
      · simp [FlowMessageClassifierServicer.ClassifyStreaming, hc] at h
      · rcases ls with _ | ⟨r0, tl⟩
        · simp [FlowMessageClassifierServicer.ClassifyStreaming, hc] at h
        · simp only [FlowMessageClassifierServicer.ClassifyStreaming, hc] at h ⊢
          obtain ⟨hlen, hord⟩ := ih h
          refine ⟨by simpa using hlen, ?_⟩
          intro i hi
          cases i with
          | zero =>
              refine ⟨msg, ⟨r0 == 1⟩, by simp, ?_, by simp⟩
              simp only [FlowMessageClassifierServicer.Classify, hc]
          | succ j =>
              have hj : j < rest.length := by simpa using hi
              obtain ⟨m, v, hm, hcv, hv⟩ := hord j hj
              exact ⟨m, v, by simpa using hm, hcv, by simpa using hv⟩

/-- C3 at a concrete input: a two-record stream under the always-0 model
closes without error and emits exactly two verdicts. -/
theorem C3_completeness_and_order_witness :
    (FlowMessageClassifierServicer.ClassifyStreaming modelZero
        [msgExample, msgZero]).1.length = 2 :=
  (C3_completeness_and_order modelZero [msgExample, msgZero] rfl).1

/-- C4: a stream whose first failing record sits after the valid records of
pre emits exactly one verdict per record of pre — so k minus 1 verdicts
when the failure is at position k — and then terminates carrying the error
of the failing record; nothing is emitted for the failing record or for
any record after it. -/
theorem C4_fail_fast (model : Model) (pre post : List FlowMessage)
    (bad : FlowMessage) (e : RpcError)
    (hpre : ∀ m ∈ pre, ∃ v,
      FlowMessageClassifierServicer.Classify model m = Except.ok v)
    (hbad : FlowMessageClassifierServicer.Classify model bad =
      Except.error e) :
    (FlowMessageClassifierServicer.ClassifyStreaming model
        (pre ++ bad :: post)).1.length = pre.length ∧
    (FlowMessageClassifierServicer.ClassifyStreaming model
        (pre ++ bad :: post)).2 = some e := by
  induction pre with
  | nil =>
      rcases hc : Classifier.classify model bad with e0 | ls
      · simp only [FlowMessageClassifierServicer.Classify, hc] at hbad
        simp [FlowMessageClassifierServicer.ClassifyStreaming, hc]
        exact Except.error.inj hbad
      · rcases ls with _ | ⟨r0, tl⟩
        · simp only [FlowMessageClassifierServicer.Classify, hc] at hbad
          simp [FlowMessageClassifierServicer.ClassifyStreaming, hc]
          exact Except.error.inj hbad
        · simp [FlowMessageClassifierServicer.Classify, hc] at hbad
  | cons m rest ih =>
      obtain ⟨v, hm⟩ := hpre m (by simp)
      rcases hc : Classifier.classify model m with e0 | ls
      · simp [FlowMessageClassifierServicer.Classify, hc] at hm
      · rcases ls with _ | ⟨r0, tl⟩
        · simp [FlowMessageClassifierServicer.Classify, hc] at hm
        · have ihh := ih (fun x hx => hpre x (List.mem_cons_of_mem m hx))
          simp only [List.cons_append,
            FlowMessageClassifierServicer.ClassifyStreaming, hc]
          exact ⟨by simpa using ihh.1, by simpa using ihh.2⟩

/-- C4 at a concrete input: under a model that accepts the example record
and raises on the all-zero record, the stream example, zero, example emits
exactly one verdict and ends with the inference error. -/
theorem C4_fail_fast_witness :
    (FlowMessageClassifierServicer.ClassifyStreaming modelMixed
        [msgExample, msgZero, msgExample]).1.length = 1 ∧
    (FlowMessageClassifierServicer.ClassifyStreaming modelMixed
        [msgExample, msgZero, msgExample]).2 =
      some (RpcError.inference PredictError.inferenceFailure) :=
  C4_fail_fast modelMixed [msgExample] [msgExample] msgZero
    (RpcError.inference PredictError.inferenceFailure)
    (by
      intro m hm
      simp only [List.mem_singleton] at hm
      subst hm
      exact ⟨⟨false⟩, rfl⟩)
    rfl

/-- C8: streaming is extensionally the map of the unary handler over the
input: every verdict the stream emits at position i equals the verdict a
unary Classify of the i-th record alone returns, independent of the other
records and of the position. -/
theorem C8_stream_refines_unary (model : Model) (msgs : List FlowMessage)
    (i : Nat)
    (hi : i <
      (FlowMessageClassifierServicer.ClassifyStreaming model msgs).1.length) :
    ∃ m v, msgs[i]? = some m ∧
      FlowMessageClassifierServicer.Classify model m = Except.ok v ∧
      (FlowMessageClassifierServicer.ClassifyStreaming model msgs).1[i]? =
        some v := by
  induction msgs generalizing i with
  | nil => simp [FlowMessageClassifierServicer.ClassifyStreaming] at hi
  | cons msg rest ih =>
      rcases hc : Classifier.classify model msg with e | ls
      · simp [FlowMessageClassifierServicer.ClassifyStreaming, hc] at hi
      · rcases ls with _ | ⟨r0, tl⟩
        · simp [FlowMessageClassifierServicer.ClassifyStreaming, hc] at hi
        · cases i with
          | zero =>
              refine ⟨msg, ⟨r0 == 1⟩, by simp, ?_, ?_⟩
              · simp only [FlowMessageClassifierServicer.Classify, hc]
              · simp [FlowMessageClassifierServicer.ClassifyStreaming, hc]
          | succ j =>
              have hj : j < (FlowMessageClassifierServicer.ClassifyStreaming
                  model rest).1.length := by
                simpa [FlowMessageClassifierServicer.ClassifyStreaming, hc]
                  using hi
              obtain ⟨m, v, hm, hcv, hv⟩ := ih j hj
              refine ⟨m, v, by simpa using hm, hcv, ?_⟩
              simpa [FlowMessageClassifierServicer.ClassifyStreaming, hc]
                using hv

/-- C8 at a concrete input: position 0 of a singleton stream under the
always-1 model matches the unary verdict of that record. -/
theorem C8_stream_refines_unary_witness :
    ∃ m v, ([msgExample])[0]? = some m ∧
      FlowMessageClassifierServicer.Classify modelOne m = Except.ok v ∧
      (FlowMessageClassifierServicer.ClassifyStreaming modelOne
          [msgExample]).1[0]? = some v :=
  C8_stream_refines_unary modelOne [msgExample] 0 (by decide)

/-- C5 as stated is false at a concrete input: under a model whose predict
raises, the unary call fails, but since the handler catches nothing and
sets no status code, the caller observes the framework default status
UNKNOWN, not the internal (nor invalid-argument) status the claim
specifies. -/
theorem C5_counterexample :
    FlowMessageClassifierServicer.Classify modelFail msgExample =
      Except.error (RpcError.inference PredictError.inferenceFailure) ∧
    (unaryCallOutcome modelFail msgExample).1 ≠ StatusCode.internal ∧
    (unaryCallOutcome modelFail msgExample).1 ≠
      StatusCode.invalidArgument ∧
    (unaryCallOutcome modelFail msgExample).2 = none := by
  refine ⟨rfl, ?_, ?_, rfl⟩ <;> decide

/-- C5 amended: every unary failure — any error escaping the handler —
terminates the call with an error status surfaced to the caller and no
Verdict message; the status is the framework default UNKNOWN in every
case, because the handler never distinguishes error kinds. -/
theorem C5_amended_error_surfaced (model : Model) (request : FlowMessage)
    (e : RpcError)
    (h : FlowMessageClassifierServicer.Classify model request =
      Except.error e) :
    unaryCallOutcome model request = (StatusCode.unknown, none) := by
  simp only [unaryCallOutcome, h]

/-- C5 amended, at a concrete input: the always-raising model yields the
UNKNOWN status and no verdict on the example record. -/
theorem C5_amended_error_surfaced_witness :
    unaryCallOutcome modelFail msgExample = (StatusCode.unknown, none) :=
  C5_amended_error_surfaced modelFail msgExample
    (RpcError.inference PredictError.inferenceFailure) rfl

/-- C6: with a missing, unreadable or undeserializable artifact, startup is
exactly the fatal load error, and no running (bound, serving) server
exists; with a loadable artifact, the model every later request observes
is the one produced at load time — loading happens once, at startup, and
is never redone at request time. -/
theorem C6_startup_failure (port : Nat) :
    startProcess none port = Except.error StartupError.modelLoadFailure ∧
    (∀ s : RunningServer, startProcess none port ≠ Except.ok s) ∧
    (∀ (m : Model) (s : RunningServer) (reqs : List Request),
        startProcess (some m) port = Except.ok s →
          (RunningServer.run s reqs).model = m) := by
  refine ⟨rfl, fun s h => by simp [startProcess] at h, ?_⟩
  intro m s reqs h
  have h' : ({ model := m, port := port } : RunningServer) = s := by
    simpa [startProcess] using h
  rw [run_model_eq, ← h']

/-- C6 at concrete inputs: startup on the default port with no artifact is
the load error, and a started server still holds the loaded model after a
request. -/
theorem C6_startup_failure_witness :
    startProcess none 50051 = Except.error StartupError.modelLoadFailure ∧
    (RunningServer.run ⟨modelZero, 50051⟩
        [Request.unary msgExample]).model = modelZero :=
  ⟨(C6_startup_failure 50051).1,
    (C6_startup_failure 50051).2.2 modelZero ⟨modelZero, 50051⟩
      [Request.unary msgExample] rfl⟩

/-- C9: the model is an invariant of every operation: handling any single
request returns the state unchanged, and after any trace of unary and
streaming calls the model of a server started from artifact m is still m. -/
theorem C9_model_invariant (m : Model) (port : Nat) (s0 : RunningServer)
    (reqs : List Request)
    (h : startProcess (some m) port = Except.ok s0) :
    (∀ (s : RunningServer) (req : Request), ((s.handle req).2).model =
      s.model) ∧
    (RunningServer.run s0 reqs).model = m := by
  refine ⟨fun s req => by rw [handle_preserves_state], ?_⟩
  have h' : ({ model := m, port := port } : RunningServer) = s0 := by
    simpa [startProcess] using h
  rw [run_model_eq, ← h']

/-- C9 at concrete inputs: after a unary and a streaming call, the server
started with the always-0 model still holds it. -/
theorem C9_model_invariant_witness :
    (RunningServer.run ⟨modelZero, 50051⟩
        [Request.unary msgExample,
         Request.streaming [msgExample, msgZero]]).model = modelZero :=
  (C9_model_invariant modelZero 50051 ⟨modelZero, 50051⟩
    [Request.unary msgExample,
     Request.streaming [msgExample, msgZero]] rfl).2

end Krewetka
